import Mathlib

/-!
Verification of the flight-dashboard app (src/app.py): a shallow embedding
of its filter pipeline, history catalog, label round-trip, render flow and
CSV-loading behaviour, with theorems settling the specification claims.
-/

namespace FlightDashboard

/-- One row of the flight table `latest_flights.csv`, with the CSV columns
used by src/app.py. The numeric price column is embedded as a rational. -/
structure FlightRow where
  destinationCity : String
  price : String
  numericPrice : ℚ
  airline : String
  flightNumber : String
  aircraft : String
  departureAirport : String
  destinationAirport : String
  departureTime : String
  arrivalTime : String
  duration : String
  stops : Nat
deriving DecidableEq, Repr

/-- Sidebar filter state: the two endpoints of the price-range slider, the
destination and airline multiselect lists (empty list = nothing selected),
and the direct-flights-only checkbox. -/
structure FilterCriteria where
  minPrice : ℚ
  maxPrice : ℚ
  destinations : List String
  airlines : List String
  directOnly : Bool
deriving DecidableEq, Repr

/-- The price-range mask of app.py line 227:
`(df['Price (numeric)'] >= min_price) & (df['Price (numeric)'] <= max_price)`. -/
def rowPrice (c : FilterCriteria) (r : FlightRow) : Bool :=
  decide (c.minPrice ≤ r.numericPrice) && decide (r.numericPrice ≤ c.maxPrice)

/-- The filter pipeline of app.py lines 227-236: the price mask is applied
unconditionally; the destination and airline `isin` masks only when the
corresponding multiselect list is non-empty (Python list truthiness); the
`Stops == 0` mask only when the checkbox is set. Boolean indexing of a
pandas DataFrame keeps rows in order, so each stage is a `List.filter`. -/
def applyFilters (df : List FlightRow) (c : FilterCriteria) : List FlightRow :=
  let f1 := df.filter (fun r => rowPrice c r)
  let f2 := if c.destinations.isEmpty then f1
            else f1.filter (fun r => c.destinations.contains r.destinationCity)
  let f3 := if c.airlines.isEmpty then f2
            else f2.filter (fun r => c.airlines.contains r.airline)
  if c.directOnly then f3.filter (fun r => r.stops == 0) else f3

/-- Helper: the whole pipeline is one filter by the conjunction of the four
masks (each optional mask defaulting to true when its widget is unset). -/
theorem applyFilters_eq_filter (df : List FlightRow) (c : FilterCriteria) :
    applyFilters df c = df.filter (fun r =>
      rowPrice c r
      && (c.destinations.isEmpty || c.destinations.contains r.destinationCity)
      && (c.airlines.isEmpty || c.airlines.contains r.airline)
      && (!c.directOnly || r.stops == 0)) := by
  unfold applyFilters
  by_cases hd : c.destinations.isEmpty <;>
    by_cases ha : c.airlines.isEmpty <;>
      by_cases hb : c.directOnly <;>
        simp [hd, ha, hb, List.filter_filter, Bool.and_comm, Bool.and_assoc,
          Bool.and_left_comm]

/-- C1. A row is in the filtered table iff it is in the input table and all
four predicates hold: the price lies in `[min, max]`, the destination list is
empty or contains the row's destination, the airline list is empty or
contains the row's airline, and the direct-only flag is off or the row has
zero stops. -/
theorem filter_membership_conjunction (df : List FlightRow) (c : FilterCriteria)
    (r : FlightRow) :
    r ∈ applyFilters df c ↔
      r ∈ df
      ∧ (c.minPrice ≤ r.numericPrice ∧ r.numericPrice ≤ c.maxPrice)
      ∧ (c.destinations = [] ∨ r.destinationCity ∈ c.destinations)
      ∧ (c.airlines = [] ∨ r.airline ∈ c.airlines)
      ∧ (c.directOnly = false ∨ r.stops = 0) := by
  rw [applyFilters_eq_filter]
  simp [List.mem_filter, rowPrice, List.contains, List.isEmpty_iff, List.elem_eq_mem,
    Bool.or_eq_true, Bool.and_eq_true, decide_eq_true_eq, and_assoc]

/-- C2. The filtered table is a sublist of the input table: every output row
is an input row, relative order is preserved, and no row is duplicated or
synthesized. The pipeline is total, so an empty result is an ordinary value,
not a failure. -/
theorem filter_sublist_of_input (df : List FlightRow) (c : FilterCriteria) :
    List.Sublist (applyFilters df c) df := by
  rw [applyFilters_eq_filter]
  exact List.filter_sublist df

/-- C3. With unrestricted criteria (`min = 0`, a `max` that bounds every
price in the table, standing for the spec's `max = ∞`, empty destination and
airline selections, direct-only off), a table whose prices are all
non-negative filters to itself, in order. The slider's actual default upper
bound `ceil(max price)` is such a bound. -/
theorem filter_unrestricted_identity (df : List FlightRow) (hi : ℚ)
    (h0 : ∀ r ∈ df, 0 ≤ r.numericPrice)
    (hhi : ∀ r ∈ df, r.numericPrice ≤ hi) :
    applyFilters df ⟨0, hi, [], [], false⟩ = df := by
  rw [applyFilters_eq_filter]
  refine List.filter_eq_self.mpr ?_
  intro r hr
  simp [rowPrice, h0 r hr, hhi r hr]

/-- Sample row used in concrete witnesses. -/
def rowParis : FlightRow :=
  ⟨"Paris", "£45.00", 45, "British Airways", "BA306", "A320", "LHR", "CDG",
    "07:15", "09:30", "1h 15m", 0⟩

/-- Second sample row used in concrete witnesses. -/
def rowRome : FlightRow :=
  ⟨"Rome", "£120.00", 120, "Ryanair", "FR584", "B738", "STN", "FCO",
    "10:05", "13:45", "2h 40m", 1⟩

/-- Witness for C3 at a concrete two-row table with bound 200. -/
theorem filter_unrestricted_identity_witness :
    applyFilters [rowParis, rowRome] ⟨0, 200, [], [], false⟩ = [rowParis, rowRome] :=
  filter_unrestricted_identity [rowParis, rowRome] 200 (by decide) (by decide)

/-! ## History catalog (app.py lines 89-135 and 289-335) -/

/-- One entry of the blob listing: object key and last-modified timestamp
(modelled as a Nat; only its order matters). -/
structure BlobInfo where
  name : String
  lastModified : Nat
deriving DecidableEq, Repr

/-- Python's `str.replace(pat, rep)`: replace every non-overlapping
occurrence of `pat`, scanning left to right, on the character list. The
fuel argument is the scan budget (initialised to the string length). -/
def pyReplaceAux (pat rep : List Char) : Nat → List Char → List Char
  | _, [] => []
  | 0, s => s
  | fuel + 1, c :: rest =>
    if pat.isPrefixOf (c :: rest) ∧ pat ≠ [] then
      rep ++ pyReplaceAux pat rep fuel ((c :: rest).drop pat.length)
    else
      c :: pyReplaceAux pat rep fuel rest

/-- Python's `str.replace` at the granularity used by the app. -/
def pyReplace (s pat rep : List Char) : List Char :=
  pyReplaceAux pat rep s.length s

/-- Digit test, as in the regexes underlying `datetime.strptime`. -/
def isDig (c : Char) : Bool :=
  48 ≤ c.toNat && c.toNat ≤ 57

/-- Numeric value of a digit character. -/
def digVal (c : Char) : Nat :=
  c.toNat - 48

/-- The `%Y` directive: exactly four digits. -/
def matchY : List Char → List (Nat × List Char)
  | a :: b :: c :: d :: rest =>
    if isDig a && isDig b && isDig c && isDig d then
      [(digVal a * 1000 + digVal b * 100 + digVal c * 10 + digVal d, rest)]
    else []
  | _ => []

/-- A literal character of the format string. -/
def matchLit (ch : Char) : List Char → List (Unit × List Char)
  | c :: rest => if c = ch then [((), rest)] else []
  | [] => []

/-- The `%m` directive, regex `1[0-2]|0[1-9]|[1-9]`, branches in regex
preference order. -/
def matchMon (s : List Char) : List (Nat × List Char) :=
  (match s with
   | '1' :: c :: rest =>
     if isDig c && digVal c ≤ 2 then [(10 + digVal c, rest)] else []
   | _ => []) ++
  (match s with
   | '0' :: c :: rest =>
     if isDig c && 1 ≤ digVal c then [(digVal c, rest)] else []
   | _ => []) ++
  (match s with
   | c :: rest =>
     if isDig c && 1 ≤ digVal c then [(digVal c, rest)] else []
   | _ => [])

/-- The `%d` directive, regex `3[01]|[1-2]\d|0[1-9]|[1-9]| [1-9]`. -/
def matchDay (s : List Char) : List (Nat × List Char) :=
  (match s with
   | '3' :: c :: rest =>
     if isDig c && digVal c ≤ 1 then [(30 + digVal c, rest)] else []
   | _ => []) ++
  (match s with
   | a :: c :: rest =>
     if (a = '1' || a = '2') && isDig c then [(digVal a * 10 + digVal c, rest)]
     else []
   | _ => []) ++
  (match s with
   | '0' :: c :: rest =>
     if isDig c && 1 ≤ digVal c then [(digVal c, rest)] else []
   | _ => []) ++
  (match s with
   | c :: rest =>
     if isDig c && 1 ≤ digVal c then [(digVal c, rest)] else []
   | _ => []) ++
  (match s with
   | ' ' :: c :: rest =>
     if isDig c && 1 ≤ digVal c then [(digVal c, rest)] else []
   | _ => [])

/-- The `%H` directive, regex `2[0-3]|[0-1]\d|\d`. -/
def matchHour (s : List Char) : List (Nat × List Char) :=
  (match s with
   | '2' :: c :: rest =>
     if isDig c && digVal c ≤ 3 then [(20 + digVal c, rest)] else []
   | _ => []) ++
  (match s with
   | a :: c :: rest =>
     if (a = '0' || a = '1') && isDig c then [(digVal a * 10 + digVal c, rest)]
     else []
   | _ => []) ++
  (match s with
   | c :: rest => if isDig c then [(digVal c, rest)] else []
   | _ => [])

/-- The `%M` directive, regex `[0-5]\d|\d`. -/
def matchMin (s : List Char) : List (Nat × List Char) :=
  (match s with
   | a :: c :: rest =>
     if isDig a && digVal a ≤ 5 && isDig c then [(digVal a * 10 + digVal c, rest)]
     else []
   | _ => []) ++
  (match s with
   | c :: rest => if isDig c then [(digVal c, rest)] else []
   | _ => [])

/-- The `%S` directive, regex `6[0-1]|[0-5]\d|\d` (leap seconds admitted by
the regex, rejected later by the `datetime` constructor). -/
def matchSec (s : List Char) : List (Nat × List Char) :=
  (match s with
   | '6' :: c :: rest =>
     if isDig c && digVal c ≤ 1 then [(60 + digVal c, rest)] else []
   | _ => []) ++
  (match s with
   | a :: c :: rest =>
     if isDig a && digVal a ≤ 5 && isDig c then [(digVal a * 10 + digVal c, rest)]
     else []
   | _ => []) ++
  (match s with
   | c :: rest => if isDig c then [(digVal c, rest)] else []
   | _ => [])

/-- A parsed wall-clock value, as produced by `datetime.strptime`. -/
structure PyDateTime where
  year : Nat
  month : Nat
  day : Nat
  hour : Nat
  minute : Nat
  second : Nat
deriving DecidableEq, Repr

/-- All matches of the compiled pattern `%Y-%m-%d_%H%M%S` against a string,
enumerated in the regex engine's depth-first backtracking order (each
directive's branches in preference order; `List.bind` explores all later
directives before moving to an earlier directive's next branch). -/
def strptimeMatches (s : List Char) : List (PyDateTime × List Char) :=
  (matchY s).flatMap fun ys =>
  (matchLit '-' ys.2).flatMap fun s2 =>
  (matchMon s2.2).flatMap fun ms =>
  (matchLit '-' ms.2).flatMap fun s4 =>
  (matchDay s4.2).flatMap fun ds =>
  (matchLit '_' ds.2).flatMap fun s6 =>
  (matchHour s6.2).flatMap fun hs =>
  (matchMin hs.2).flatMap fun mins =>
  (matchSec mins.2).map fun secs =>
    (⟨ys.1, ms.1, ds.1, hs.1, mins.1, secs.1⟩, secs.2)

/-- Proleptic-Gregorian leap-year rule used by `datetime`. -/
def isLeap (y : Nat) : Bool :=
  y % 4 = 0 && (y % 100 ≠ 0 || y % 400 = 0)

/-- Days in a month, as validated by the `datetime` constructor. -/
def daysInMonth (y m : Nat) : Nat :=
  if m = 2 then (if isLeap y then 29 else 28)
  else if m = 4 ∨ m = 6 ∨ m = 9 ∨ m = 11 then 30
  else 31

/-- The range checks of the `datetime.datetime` constructor (`MINYEAR = 1`;
seconds 60-61 admitted by the `%S` regex are rejected here). -/
def validDateTime (d : PyDateTime) : Bool :=
  1 ≤ d.year && 1 ≤ d.month && d.month ≤ 12
  && 1 ≤ d.day && d.day ≤ daysInMonth d.year d.month
  && d.hour ≤ 23 && d.minute ≤ 59 && d.second ≤ 59

/-- `datetime.strptime(s, '%Y-%m-%d_%H%M%S')`, returning `none` where Python
raises `ValueError` (no regex match, unconsumed trailing characters, or
constructor range failure); the regex engine commits to its first
backtracking success before the trailing-characters check. -/
def strptime (s : List Char) : Option PyDateTime :=
  match (strptimeMatches s).head? with
  | none => none
  | some (dt, rest) =>
    if rest.isEmpty && validDateTime dt then some dt else none

/-- English month abbreviations for `%b`. -/
def monthAbbr (m : Nat) : String :=
  match m with
  | 1 => "Jan" | 2 => "Feb" | 3 => "Mar" | 4 => "Apr" | 5 => "May" | 6 => "Jun"
  | 7 => "Jul" | 8 => "Aug" | 9 => "Sep" | 10 => "Oct" | 11 => "Nov" | _ => "Dec"

/-- Zero-pad a number to two digits. -/
def pad2 (n : Nat) : String :=
  if n < 10 then "0" ++ toString n else toString n

/-- Zero-pad a number to four digits. -/
def pad4 (n : Nat) : String :=
  if n < 10 then "000" ++ toString n
  else if n < 100 then "00" ++ toString n
  else if n < 1000 then "0" ++ toString n
  else toString n

/-- `dt.strftime('%b %d, %Y at %I:%M %p')`: abbreviated month, zero-padded
day, year, 12-hour clock with zero-padded hour and minute, AM/PM. -/
def strftime (d : PyDateTime) : String :=
  monthAbbr d.month ++ " " ++ pad2 d.day ++ ", " ++ pad4 d.year ++ " at "
    ++ pad2 (if d.hour % 12 = 0 then 12 else d.hour % 12) ++ ":"
    ++ pad2 d.minute ++ " "
    ++ (if d.hour < 12 then "AM" else "PM")

/-- The stripped key of app.py line 303:
`blob_info['name'].replace('history/', '').replace('.csv', '')`. -/
def strippedKey (b : BlobInfo) : List Char :=
  pyReplace (pyReplace b.name.data "history/".data []) ".csv".data []

/-- The timestamp text of app.py line 305:
`filename.replace('flights_', '').replace('.csv', '')`. -/
def timestampText (b : BlobInfo) : List Char :=
  pyReplace (pyReplace (strippedKey b) "flights_".data []) ".csv".data []

/-- `format_history_name` of app.py lines 302-309: strip the prefix and
suffix, strip `flights_` (and `.csv` again) to get the timestamp text, parse
it with `strptime`, render it with `strftime`; on any parse failure (the bare
`except:`) fall back to the stripped key. -/
def format_history_name (b : BlobInfo) : String :=
  match strptime (timestampText b) with
  | some dt => strftime dt
  | none => String.mk (strippedKey b)

/-- The blob-listing predicate of `get_history_files` (app.py lines 100-101):
the key filter `name_starts_with='history/'` passed to the listing call,
composed with the `blob.name.endswith('.csv')` test. -/
def historyBlobFilter (b : BlobInfo) : Bool :=
  "history/".data.isPrefixOf b.name.data && ".csv".data.isSuffixOf b.name.data

/-- The comparison of `history_blobs.sort(key=..., reverse=True)`:
descending by last-modified. -/
def blobDescR : BlobInfo → BlobInfo → Prop :=
  fun a b => b.lastModified ≤ a.lastModified

instance : DecidableRel blobDescR :=
  fun a b => Nat.decLe b.lastModified a.lastModified

instance : IsTotal BlobInfo blobDescR :=
  ⟨fun a b => (Nat.le_total b.lastModified a.lastModified).imp id id⟩

instance : IsTrans BlobInfo blobDescR :=
  ⟨fun _ _ _ h1 h2 => Nat.le_trans h2 h1⟩

/-- `get_history_files` (app.py lines 89-112) on a successfully listed
container: keep keys under the history prefix with the CSV suffix, then a
stable sort descending by last-modified (Python's `list.sort` is stable;
`List.insertionSort` with this relation is the stable descending sort). -/
def get_history_files (container : List BlobInfo) : List BlobInfo :=
  List.insertionSort blobDescR (container.filter historyBlobFilter)

/-- `get_history_files` including its catch-all failure path: a listing
failure is caught and the function returns `[]` (after rendering an error
message, modelled separately in `renderHistory`). -/
def get_history_filesResult (fetch : Option (List BlobInfo)) : List BlobInfo :=
  match fetch with
  | none => []
  | some container => get_history_files container

/-- What the sidebar history expander shows (app.py lines 296-321): either
the "No older price data yet" message, or the selectbox options `'Current'`
followed by the formatted labels of the ten most recent older snapshots. -/
structure HistoryPanel where
  noOlderDataShown : Bool
  menuOptions : List String
deriving DecidableEq, Repr

/-- The expander body: the menu is offered only when
`history_files and len(history_files) > 1`, i.e. when the listing has at
least two entries; `older_files = history_files[1:]` drops the most recent
entry and `older_files[:10]` keeps at most ten. -/
def historySection (files : List BlobInfo) : HistoryPanel :=
  if 1 < files.length then
    { noOlderDataShown := false,
      menuOptions := "Current" :: ((files.drop 1).take 10).map format_history_name }
  else
    { noOlderDataShown := true, menuOptions := [] }

/-- `filename_mapping` (app.py line 312): the dict comprehension
`{format_history_name(f): f['name'] for f in older_files[:10]}`, kept here
as the association list in comprehension order. -/
def filename_mapping (files : List BlobInfo) : List (String × String) :=
  ((files.drop 1).take 10).map (fun f => (format_history_name f, f.name))

/-- Python dict lookup over the comprehension: a later pair with the same
key overwrites an earlier one, so the last binding wins. -/
def dictGet (m : List (String × String)) (k : String) : Option String :=
  match m with
  | [] => none
  | kv :: rest =>
    match dictGet rest k with
    | some v => some v
    | none => if kv.1 = k then some kv.2 else none

/-- All formatted labels of a list of refs are pairwise distinct. -/
def labelsDistinct : List BlobInfo → Bool
  | [] => true
  | f :: rest =>
    rest.all (fun g => format_history_name g != format_history_name f)
      && labelsDistinct rest

/-- The rendered history area: whether the catch-all error message of
`get_history_files` was rendered, plus the expander body. -/
structure HistoryRender where
  fetchErrorShown : Bool
  panel : HistoryPanel
deriving DecidableEq, Repr

/-- History area render flow: a listing failure renders the generic error
message and yields the empty listing, after which the expander body sees
zero files. -/
def renderHistory (fetch : Option (List BlobInfo)) : HistoryRender :=
  { fetchErrorShown := fetch.isNone
    panel := historySection (get_history_filesResult fetch) }

/-! ## Main render flow (app.py lines 137-188) -/

/-- `metadata.json` contents as used by the app. -/
structure Metadata where
  last_updated : String
  departure_date : Option String
  destinations_searched : Nat
deriving DecidableEq, Repr

/-- `df['Destination City'].nunique()`: count of distinct destinations. -/
def nuniqueDest (df : List FlightRow) : Nat :=
  ((df.map FlightRow.destinationCity).eraseDups).length

/-- Which top-level elements a render pass produces. -/
structure MainRender where
  stopped : Bool
  tableShown : Bool
  lastUpdatedBannerShown : Bool
  totalFlightsMetric : Option Nat
  destinationsMetric : Option Nat
  historySectionShown : Bool
deriving DecidableEq, Repr

/-- The script flow of app.py lines 137-188 and onwards: if the flight table
failed to load (`df is None`), `st.stop()` halts the whole render; otherwise
the table and metrics render, the last-updated banner renders only when
metadata loaded, and the destinations metric falls back to the
table-derived `nunique` when metadata is missing. The history expander is
further down the script, so it renders only when the script was not
stopped. -/
def renderPage (dfRes : Option (List FlightRow)) (metaRes : Option Metadata) :
    MainRender :=
  match dfRes with
  | none =>
    { stopped := true, tableShown := false, lastUpdatedBannerShown := false,
      totalFlightsMetric := none, destinationsMetric := none,
      historySectionShown := false }
  | some df =>
    { stopped := false, tableShown := true,
      lastUpdatedBannerShown := metaRes.isSome,
      totalFlightsMetric := some df.length,
      destinationsMetric := some (match metaRes with
        | some m => m.destinations_searched
        | none => nuniqueDest df),
      historySectionShown := true }

/-! ## CSV loading (app.py lines 42-63) -/

/-- A parsed dataframe: header names and rectangular string cells. -/
structure Csv where
  header : List String
  rows : List (List String)
deriving DecidableEq, Repr

/-- Pad a short row to the header width (pandas fills missing trailing
fields with NaN, embedded as the empty cell). -/
def padRow (n : Nat) (r : List String) : List String :=
  r ++ List.replicate (n - r.length) ""

/-- Model of `pandas.read_csv` at tokenization level: an empty input raises
(`EmptyDataError`); a data row with more fields than the header raises a
tokenization `ParserError`; otherwise every data row is kept as strings.
`read_csv` performs no validation of column names and no numeric conversion
of any particular column — a missing `Price (numeric)` column or a
non-decimal price cell still parses. -/
def read_csv (input : List (List String)) : Option Csv :=
  match input with
  | [] => none
  | h :: rs =>
    if rs.all (fun r => r.length ≤ h.length) then
      some ⟨h, rs.map (padRow h.length)⟩
    else none

/-- `load_flight_data` (app.py lines 42-63): fetch the CSV bytes and parse
them; any exception in either step is caught and `None` is returned. -/
def load_flight_data (fetch : Option (List (List String))) : Option Csv :=
  match fetch with
  | none => none
  | some raw => read_csv raw

/-- A string is parseable as a signed decimal literal: an optional sign,
then digits with at most one decimal point and at least one digit. -/
def isDecimalStr (s : List Char) : Bool :=
  let t := match s with
    | '-' :: t => t
    | '+' :: t => t
    | t => t
  t.any isDig && t.all (fun c => isDig c || c = '.')
    && (t.filter (fun c => c = '.')).length ≤ 1

/-! ## Theorems on the history catalog -/

/-- Filtering by a fixed timestamp commutes with one ordered insertion:
the elements skipped by `orderedInsert` are strictly more recent than the
inserted one, so they never share its timestamp. -/
theorem filter_orderedInsert_lm (t : Nat) (x : BlobInfo) (l : List BlobInfo) :
    (List.orderedInsert blobDescR x l).filter (fun b => b.lastModified == t) =
      (if x.lastModified = t then [x] else [])
        ++ l.filter (fun b => b.lastModified == t) := by
  induction l with
  | nil =>
    by_cases hx : x.lastModified = t <;> simp [List.orderedInsert, hx]
  | cons y ys ih =>
    by_cases hr : blobDescR x y
    · by_cases hx : x.lastModified = t <;>
        simp [List.orderedInsert, hr, List.filter_cons, hx]
    · have hlt : x.lastModified < y.lastModified := Nat.lt_of_not_le hr
      by_cases hy : y.lastModified = t
      · have hx : ¬ x.lastModified = t := by omega
        simp [List.orderedInsert, hr, List.filter_cons, hy, hx, ih]
      · simp [List.orderedInsert, hr, List.filter_cons, hy, ih]

/-- Stability of the sort: the sublist of entries sharing any timestamp is
unchanged, i.e. ties keep the order of the underlying listing. -/
theorem filter_insertionSort_lm (t : Nat) (l : List BlobInfo) :
    (List.insertionSort blobDescR l).filter (fun b => b.lastModified == t) =
      l.filter (fun b => b.lastModified == t) := by
  induction l with
  | nil => rfl
  | cons x xs ih =>
    rw [List.insertionSort, filter_orderedInsert_lm, ih, List.filter_cons]
    by_cases hx : x.lastModified = t <;> simp [hx]

/-- C5 (amended). The listing contains exactly the listed objects whose key
starts with `history/` and ends with `.csv`; it is sorted by last-modified
descending; and ties between equal timestamps preserve the relative order
of the underlying object listing (Python's sort is stable) — they are not
re-ordered by key. -/
theorem history_listing_sorted_stable (container : List BlobInfo) :
    (∀ b, b ∈ get_history_files container ↔
        b ∈ container ∧ historyBlobFilter b = true)
    ∧ List.Sorted blobDescR (get_history_files container)
    ∧ ∀ t, (get_history_files container).filter (fun b => b.lastModified == t) =
        (container.filter historyBlobFilter).filter (fun b => b.lastModified == t) := by
  refine ⟨?_, ?_, ?_⟩
  · intro b
    unfold get_history_files
    rw [List.mem_insertionSort, List.mem_filter]
  · exact List.sorted_insertionSort blobDescR _
  · intro t
    exact filter_insertionSort_lm t _

/-- Lexicographic order on keys, by code point. -/
def strLexLe : List Char → List Char → Bool
  | [], _ => true
  | _ :: _, [] => false
  | a :: as, b :: bs =>
    if a.toNat < b.toNat then true
    else if b.toNat < a.toNat then false
    else strLexLe as bs

/-- Adjacent entries with equal timestamps appear in ascending key order. -/
def tiesKeyAscending : List BlobInfo → Bool
  | a :: b :: rest =>
    (a.lastModified != b.lastModified || strLexLe a.name.data b.name.data)
      && tiesKeyAscending (b :: rest)
  | _ => true

/-- Listing entry used in the C5 counterexample. -/
def blobKeyB : BlobInfo := ⟨"history/flights_b.csv", 5⟩

/-- Listing entry used in the C5 counterexample. -/
def blobKeyA : BlobInfo := ⟨"history/flights_a.csv", 5⟩

/-- C5 counterexample. When the underlying listing returns the
larger-keyed object first and both share a last-modified timestamp, the
stable sort keeps that order, so the catalog is not tie-broken by key
ascending as the claim states. -/
theorem history_listing_tiebreak_cex :
    ¬ (tiesKeyAscending (get_history_files [blobKeyB, blobKeyA]) = true) := by
  decide

/-- Looking up a label that no ref of the mapped list produces fails. -/
theorem dictGet_map_none (L : List BlobInfo) (k : String)
    (h : ∀ g ∈ L, format_history_name g ≠ k) :
    dictGet (L.map (fun f => (format_history_name f, f.name))) k = none := by
  induction L with
  | nil => rfl
  | cons g gs ih =>
    simp only [List.map, dictGet]
    rw [ih (fun g' hg' => h g' (List.mem_cons_of_mem _ hg'))]
    simp [h g (List.mem_cons_self g gs)]

/-- With pairwise-distinct labels, the last-binding-wins dict lookup
recovers each mapped ref's key. -/
theorem dictGet_map_mem (L : List BlobInfo) (f : BlobInfo)
    (hmem : f ∈ L) (hdist : labelsDistinct L = true) :
    dictGet (L.map (fun g => (format_history_name g, g.name)))
      (format_history_name f) = some f.name := by
  induction L with
  | nil => cases hmem
  | cons g gs ih =>
    simp only [labelsDistinct, Bool.and_eq_true, List.all_eq_true] at hdist
    obtain ⟨hall, hrest⟩ := hdist
    rcases List.mem_cons.mp hmem with rfl | hmem'
    · have hnone : ∀ g' ∈ gs, format_history_name g' ≠ format_history_name f := by
        intro g' hg'
        simpa [bne_iff_ne] using hall g' hg'
      simp only [List.map, dictGet]
      rw [dictGet_map_none gs _ hnone]
      simp
    · simp only [List.map, dictGet]
      rw [ih hmem' hrest]

/-- C4 (amended). For every ref among the up-to-ten offered entries — the
refs `older_files[:10]` from which `filename_mapping` is built — resolving
its formatted label through the mapping yields back exactly its storage key,
provided those offered entries have pairwise-distinct labels. Refs outside
that slice (the most recent entry and anything past the tenth older one)
have no binding at all. -/
theorem label_roundtrip_offered (files : List BlobInfo) (f : BlobInfo)
    (hmem : f ∈ (files.drop 1).take 10)
    (hdist : labelsDistinct ((files.drop 1).take 10) = true) :
    dictGet (filename_mapping files) (format_history_name f) = some f.name :=
  dictGet_map_mem _ f hmem hdist

/-- Snapshot ref used in concrete history witnesses. -/
def blobMar : BlobInfo := ⟨"history/flights_2025-03-01_080000.csv", 30⟩

/-- Snapshot ref used in concrete history witnesses. -/
def blobFeb : BlobInfo := ⟨"history/flights_2025-02-01_080000.csv", 20⟩

/-- Snapshot ref used in concrete history witnesses. -/
def blobJan : BlobInfo := ⟨"history/flights_2025-01-01_080000.csv", 10⟩

/-- Witness for C4 (amended) at a concrete three-entry listing. -/
theorem label_roundtrip_offered_witness :
    dictGet (filename_mapping [blobMar, blobFeb, blobJan])
      (format_history_name blobFeb) = some blobFeb.name :=
  label_roundtrip_offered [blobMar, blobFeb, blobJan] blobFeb
    (by decide) (by decide)

/-- C4 counterexample. In a two-entry listing with distinct labels, the most
recent ref is in the listing but its label has no binding in
`filename_mapping` (the mapping is built from `older_files[:10]` only), so
resolving it does not yield its key. -/
theorem label_roundtrip_cex :
    labelsDistinct (get_history_files [blobMar, blobFeb]) = true
    ∧ blobMar ∈ get_history_files [blobMar, blobFeb]
    ∧ dictGet (filename_mapping (get_history_files [blobMar, blobFeb]))
        (format_history_name blobMar) ≠ some blobMar.name := by
  refine ⟨by decide, by decide, by decide⟩

/-- C6. The history menu is offered exactly when the listing has at least
two entries; it then consists of the `'Current'` sentinel followed by the
formatted labels of the entries `files[1:11]` — the most recent entry is
excluded and at most ten older snapshots are offered (menu length at most
11 including the sentinel). With one entry or fewer, no menu is offered and
the no-older-data message is shown instead. -/
theorem history_menu_spec (files : List BlobInfo) :
    ((historySection files).noOlderDataShown = true ↔ files.length ≤ 1)
    ∧ ((historySection files).menuOptions = [] ↔ files.length ≤ 1)
    ∧ (historySection files).menuOptions.length ≤ 11
    ∧ (1 < files.length →
        (historySection files).menuOptions =
          "Current" :: ((files.drop 1).take 10).map format_history_name) := by
  by_cases h : 1 < files.length <;>
    · simp [historySection, h, List.length_take]
      try omega

/-- Witness for C6 at a concrete three-entry listing. -/
theorem history_menu_spec_witness :
    (historySection [blobMar, blobFeb, blobJan]).menuOptions =
      "Current" :: [format_history_name blobFeb, format_history_name blobJan] :=
  (history_menu_spec [blobMar, blobFeb, blobJan]).2.2.2 (by decide)

/-- C7. `format_history_name` strips the history prefix and CSV suffix from
the key; if the embedded timestamp fails to parse against the fixed pattern
`%Y-%m-%d_%H%M%S` it returns the stripped key verbatim instead of failing,
and if it parses it renders the human-readable `strftime` form. -/
theorem format_label_fallback (b : BlobInfo) :
    (strptime (timestampText b) = none →
      format_history_name b = String.mk (strippedKey b))
    ∧ (∀ dt, strptime (timestampText b) = some dt →
      format_history_name b = strftime dt) := by
  unfold format_history_name
  constructor
  · intro h
    simp [h]
  · intro dt h
    simp [h]

/-- Snapshot key whose embedded timestamp does not match the pattern. -/
def blobOdd : BlobInfo := ⟨"history/flights_oldformat.csv", 7⟩

/-- Witness for C7: a malformed key falls back to its stripped form, and a
well-formed key renders as a date. -/
theorem format_label_fallback_witness :
    format_history_name blobOdd = String.mk (strippedKey blobOdd)
    ∧ format_history_name blobJan = strftime ⟨2025, 1, 1, 8, 0, 0⟩ :=
  ⟨(format_label_fallback blobOdd).1 (by decide),
   (format_label_fallback blobJan).2 ⟨2025, 1, 1, 8, 0, 0⟩ (by decide)⟩

/-! ## Theorems on the render flow -/

/-- C8 (amended). The four fetchers catch their failures independently, and
a metadata failure does not prevent the flight table from displaying: the
table, its metrics and the history section still render, with the
destinations metric falling back to the table-derived distinct count. The
reverse direction does not hold: a flight-table failure executes
`st.stop()`, which halts the whole page, so neither the metadata banner nor
the history section renders. -/
theorem render_isolation_amended (df : List FlightRow) (metaRes : Option Metadata) :
    ((renderPage (some df) metaRes).stopped = false
      ∧ (renderPage (some df) metaRes).tableShown = true
      ∧ (renderPage (some df) metaRes).historySectionShown = true)
    ∧ (renderPage (some df) none).destinationsMetric = some (nuniqueDest df)
    ∧ (∀ m, (renderPage (some df) (some m)).destinationsMetric =
        some m.destinations_searched)
    ∧ ((renderPage none metaRes).stopped = true
      ∧ (renderPage none metaRes).historySectionShown = false
      ∧ (renderPage none metaRes).lastUpdatedBannerShown = false) :=
  ⟨⟨rfl, rfl, rfl⟩, rfl, fun _ => rfl, rfl, rfl, rfl⟩

/-- Metadata record used in the C8 counterexample. -/
def metaSample : Metadata := ⟨"2025-10-01T12:00:00", some "2025-10-17", 25⟩

/-- C8 counterexample. When the flight table fails to load while metadata
loaded fine, the other operations' results do not render: `st.stop()` halts
the page before the banner and the history section. -/
theorem render_isolation_cex :
    ¬ ((renderPage none (some metaSample)).historySectionShown = true
        ∧ (renderPage none (some metaSample)).lastUpdatedBannerShown = true) := by
  decide

/-! ## Theorems on CSV loading -/

/-- C9 (amended). `load_flight_data` returns `None` on a fetch failure, and
on any CSV whose rows tokenize against the header it returns the whole
table — every data row, under the original header — with no validation of
required columns and no decimal check of the price column; it never returns
a partially parsed table. -/
theorem csv_load_no_validation (h : List String) (rs : List (List String))
    (htok : rs.all (fun r => r.length ≤ h.length) = true) :
    load_flight_data none = none
    ∧ ∃ t, load_flight_data (some (h :: rs)) = some t
        ∧ t.header = h ∧ t.rows.length = rs.length := by
  refine ⟨rfl, ⟨h, rs.map (padRow h.length)⟩, ?_, rfl, by simp⟩
  simp [load_flight_data, read_csv, htok]

/-- Witness for C9 (amended) at a concrete one-row CSV. -/
theorem csv_load_no_validation_witness :
    load_flight_data none = none
    ∧ ∃ t, load_flight_data
          (some [["Destination City", "Price"], ["Paris", "£45.00"]]) = some t
        ∧ t.header = ["Destination City", "Price"] ∧ t.rows.length = 1 :=
  csv_load_no_validation ["Destination City", "Price"] [["Paris", "£45.00"]]
    (by decide)

/-- C9 counterexample. A CSV without the required `Price (numeric)` column
parses to a table rather than an error, and so does one whose price cell is
not parseable as a decimal. -/
theorem csv_load_cex :
    (∃ t, load_flight_data
          (some [["Destination City", "Price"], ["Paris", "£45.00"]]) = some t
        ∧ ¬ "Price (numeric)" ∈ t.header)
    ∧ (∃ t, load_flight_data
          (some [["Destination City", "Price (numeric)"], ["Paris", "abc"]]) = some t
        ∧ t.rows = [["Paris", "abc"]] ∧ isDecimalStr "abc".data = false) := by
  refine ⟨⟨⟨["Destination City", "Price"], [["Paris", "£45.00"]]⟩, ?_, ?_⟩,
    ⟨⟨["Destination City", "Price (numeric)"], [["Paris", "abc"]]⟩, ?_, ?_, ?_⟩⟩
    <;> decide

/-- C10 (amended). A history-listing failure is caught and returns the empty
sequence — the same value as a successful listing that matched no keys — so
by value the two are indistinguishable and the expander shows the
no-older-data message; but the dashboard additionally renders the generic
history error message on the failure path, so the section does report an
error alongside. -/
theorem history_error_collapse (container : List BlobInfo)
    (hempty : container.filter historyBlobFilter = []) :
    get_history_filesResult none = []
    ∧ get_history_filesResult (some container) = get_history_filesResult none
    ∧ (renderHistory none).panel.noOlderDataShown = true
    ∧ (renderHistory none).fetchErrorShown = true := by
  refine ⟨rfl, ?_, rfl, rfl⟩
  simp [get_history_filesResult, get_history_files, hempty]

/-- Witness for C10 (amended): a container holding only the current CSV
produces the same empty listing as a failed fetch. -/
theorem history_error_collapse_witness :
    get_history_filesResult (some [⟨"latest_flights.csv", 3⟩]) =
      get_history_filesResult none :=
  (history_error_collapse [⟨"latest_flights.csv", 3⟩] (by decide)).2.1

/-- C10 counterexample. On a listing failure the dashboard does render the
generic error message for the history section, so it does not report
no-older-data *rather than* an error — it reports both. -/
theorem history_error_cex :
    ¬ ((renderHistory none).fetchErrorShown = false) := by
  decide

end FlightDashboard
